import Mathlib

/-!
# linktree: a shallow embedding of `src/app.js` and `src/public/js/script.js`

The Express application keeps all of its state in three MySQL relations
(`users`, `profiles`, `links`, created by `initializeDatabase`) and in the
per-client session object `req.session.user`.  Every route handler is a short
sequence of SQL statements; it is embedded here as a pure function from the
store and the caller's session to an `Outcome` (reply, new store, new session,
messages handed to the mail transporter).

Conventions of the embedding:

* SQL `=` on strings is equality of strings, rows are kept in insertion order,
  `SELECT` is `List.filter`, `UPDATE` is `List.map`, `DELETE` is `List.filter`,
  `INSERT` appends a row whose `id` is the table's auto-increment counter.
* The server rejects a statement that violates a constraint of the schema
  (`UNIQUE`, `FOREIGN KEY`, the length of a `VARCHAR(n)` / `TEXT` column under
  the server's default strict mode); a rejected statement leaves tables and
  counters as they were.  The store itself is assumed to be available.
* The database driver is `require("mysql2")` (app.js 5), the callback
  interface: `connection.execute` queues the statement and returns the command
  object, not a promise (`Awaited`, `execute`, `destructure`, `runQueued`).
  The store of an `Outcome` is the store once the queued statements have run.
* `bcrypt`, `uuidv4`, the clock and the mail transporter are external: they are
  parameters (`Bcrypt`, `Ctx`).
* The fields of a request body or query are strings (`code` may be missing);
  the `id` of `/delete-link` is the number it denotes.
-/

namespace Linktree

/-! ## Data model (`initializeDatabase`, app.js 48-92) -/

/-- A row of table `users`. -/
structure User where
  id : Nat
  email : String
  password : String
  verified : Bool
  verification_code : Option String
  created_at : Nat
deriving DecidableEq, Repr

/-- A row of table `profiles`; the three text columns are nullable. -/
structure Profile where
  id : Nat
  user_id : Nat
  display_name : Option String
  bio : Option String
  theme_color : Option String
deriving DecidableEq, Repr

/-- A row of table `links`. -/
structure Link where
  id : Nat
  user_id : Nat
  platform : String
  url : String
deriving DecidableEq, Repr

/-- The three relations together with their `AUTO_INCREMENT` counters. -/
structure Store where
  users : List User
  profiles : List Profile
  links : List Link
  nextUserId : Nat
  nextProfileId : Nat
  nextLinkId : Nat
deriving DecidableEq, Repr

/-- The database right after `initializeDatabase`: three empty tables. -/
def Store.empty : Store :=
  { users := [], profiles := [], links := [],
    nextUserId := 1, nextProfileId := 1, nextLinkId := 1 }

/-- The object stored in `req.session.user`. -/
structure SessionUser where
  id : Nat
  email : String
deriving DecidableEq, Repr

/-- The argument of `transporter.sendMail`. -/
structure Mail where
  sender : Option String
  recipient : String
  subject : String
  html : String
deriving DecidableEq, Repr

/-- What a handler sends back. -/
inductive Reply where
  | json (status : Nat) (message : String) (redirect : Option String)
  | redirect (location : String)
  | renderVerify (success : Bool) (message : String) (redirect : Option String)
  | render404
  | render500
  | renderLinktree (profile : Option Profile) (links : List Link)
deriving DecidableEq, Repr

/-- The HTTP status of a reply (`res.redirect` answers 302, `res.render` 200
unless `res.status` was called first). -/
def Reply.status : Reply → Nat
  | .json st _ _ => st
  | .redirect _ => 302
  | .renderVerify _ _ _ => 200
  | .render404 => 404
  | .render500 => 500
  | .renderLinktree _ _ => 200

/-- The result of running one handler. -/
structure Outcome where
  reply : Reply
  store : Store
  session : Option SessionUser
  mails : List Mail
deriving DecidableEq, Repr

/-- The part of `process.env` the handlers read. -/
structure Config where
  EMAIL_DOMAIN : Option String
  EMAIL_USER : Option String

/-- The hashing primitive `bcryptjs`: `hash` is salted, `compare` checks a
password against a stored hash. -/
structure Bcrypt where
  hash : String → Nat → String
  compare : String → String → Bool

/-- What the environment supplies to one request: `req.protocol`,
`req.get("host")`, the value `uuidv4()` returns, the salt `bcrypt.hash` draws,
the clock, and whether `transporter.sendMail` resolves. -/
structure Ctx where
  protocol : String
  host : Option String
  uuid : String
  salt : Nat
  now : Nat
  mailOk : Bool

/-- String conversion of a possibly `undefined` value, as `+` and template
literals perform it. -/
def jsString : Option String → String
  | some s => s
  | none => "undefined"

/-! ## The database driver -/

/-- What `await connection.execute(sql, values)` evaluates to.  `mysql` is
`require("mysql2")` (app.js 5), the callback interface: `execute` puts the
statement on the queue of the connection and returns the command object; the
result goes to a callback, and the handlers pass none.  The command object is
not a promise, so `await` yields the object itself (`command`).  `resolved` is
the array a promise interface would resolve to; `execute` never returns it. -/
inductive Awaited (α : Type) where
  | command : Awaited α
  | resolved (result : α) : Awaited α

/-- The call `connection.execute(sql, values)` for a `SELECT` whose rows are
`rows`: the statement is queued and the command object is returned. -/
def execute {α : Type} (_rows : α) : Awaited α := .command

/-- The array destructuring `const [rows] = value`: a command object is not
iterable, so the pattern throws `TypeError` (`none`). -/
def destructure {α : Type} : Awaited α → Option α
  | .command => none
  | .resolved result => some result

/-! ## SQL statements -/

/-- The statement `SELECT * FROM users WHERE email = ?`. -/
def selectUsersByEmail (s : Store) (email : String) : List User :=
  s.users.filter (fun u => u.email = email)

/-- The statement `SELECT * FROM users WHERE verification_code = ?`; a row whose
code is `NULL` never matches. -/
def selectUsersByCode (s : Store) (code : String) : List User :=
  s.users.filter (fun u => u.verification_code = some code)

/-- The statement `SELECT * FROM profiles WHERE user_id = ?`. -/
def selectProfiles (s : Store) (userId : Nat) : List Profile :=
  s.profiles.filter (fun p => p.user_id = userId)

/-- The statement `SELECT * FROM links WHERE user_id = ?`. -/
def selectLinks (s : Store) (userId : Nat) : List Link :=
  s.links.filter (fun l => l.user_id = userId)

/-- The statement `INSERT INTO users (email, password, verification_code)`:
`verified` takes its default `FALSE`; `none` when `email` is taken (`UNIQUE`) or
a value does not fit its `VARCHAR(255)` column. -/
def insertUser (s : Store) (email password code : String) (now : Nat) : Option Store :=
  if s.users.all (fun u => u.email ≠ email) ∧ email.length ≤ 255 ∧
      password.length ≤ 255 ∧ code.length ≤ 255 then
    some { s with
      users := s.users ++ [{ id := s.nextUserId, email := email, password := password,
                             verified := false, verification_code := some code,
                             created_at := now }],
      nextUserId := s.nextUserId + 1 }
  else none

/-- The statement
`UPDATE users SET verified = TRUE, verification_code = NULL WHERE id = ?`. -/
def markVerified (s : Store) (userId : Nat) : Store :=
  { s with users := s.users.map (fun u =>
      if u.id = userId then { u with verified := true, verification_code := none } else u) }

/-- The row `INSERT INTO profiles (user_id)` creates: `display_name` and `bio`
are `NULL`, `theme_color` is the column default. -/
def emptyProfile (id userId : Nat) : Profile :=
  { id := id, user_id := userId, display_name := none, bio := none,
    theme_color := some "#6366f1" }

/-- The statement `INSERT INTO profiles (user_id)`: the text columns take
their defaults; `none` when the user already has a profile (`UNIQUE`) or does
not exist (`FOREIGN KEY`). -/
def insertProfile (s : Store) (userId : Nat) : Option Store :=
  if s.profiles.all (fun p => p.user_id ≠ userId) ∧ s.users.any (fun u => u.id = userId) then
    some { s with
      profiles := s.profiles ++ [emptyProfile s.nextProfileId userId],
      nextProfileId := s.nextProfileId + 1 }
  else none

/-- The statement
`UPDATE profiles SET display_name = ?, bio = ?, theme_color = ? WHERE user_id = ?`:
`none` when a row matches and a value does not fit its column
(`VARCHAR(100)`, `TEXT`, `VARCHAR(50)`). -/
def updateProfileRow (s : Store) (displayName bio themeColor : String) (userId : Nat) :
    Option Store :=
  if s.profiles.any (fun p => p.user_id = userId) ∧
      ¬ (displayName.length ≤ 100 ∧ bio.utf8ByteSize ≤ 65535 ∧ themeColor.length ≤ 50) then
    none
  else
    some { s with profiles := s.profiles.map (fun p =>
      if p.user_id = userId then
        { p with display_name := some displayName, bio := some bio,
                 theme_color := some themeColor }
      else p) }

/-- The statement `INSERT INTO links (user_id, platform, url)`: `none` when the
user does not exist (`FOREIGN KEY`) or a value does not fit its column
(`VARCHAR(50)`, `VARCHAR(255)`). -/
def insertLink (s : Store) (userId : Nat) (platform url : String) : Option Store :=
  if s.users.any (fun u => u.id = userId) ∧ platform.length ≤ 50 ∧ url.length ≤ 255 then
    some { s with
      links := s.links ++ [{ id := s.nextLinkId, user_id := userId,
                             platform := platform, url := url }],
      nextLinkId := s.nextLinkId + 1 }
  else none

/-- The statement `DELETE FROM links WHERE id = ? AND user_id = ?`. -/
def deleteLinkRow (s : Store) (id userId : Nat) : Store :=
  { s with links := s.links.filter (fun l => ¬ (l.id = id ∧ l.user_id = userId)) }

/-- A data-changing statement handed to `connection.execute` without a
callback: it is queued and runs while the handler goes on.  When the server
accepts it (`some`) the store changes; when the server rejects it (`none`) the
store stays as it was and the handler is not told: the error is an `error`
event of the command that nobody listens to, after the reply has been sent. -/
def runQueued (s : Store) (result : Option Store) : Store :=
  result.getD s

/-! ## Route handlers -/

/-- The body of the verification message built in `app.post("/register")`. -/
def verificationMail (cfg : Config) (ctx : Ctx) (email verificationCode : String) : Mail :=
  let verificationLink :=
    ctx.protocol ++ "://" ++ jsString ctx.host ++ "/verify?code=" ++ verificationCode
  { sender := cfg.EMAIL_USER,
    recipient := email,
    subject := "Verify your LinkTree account",
    html := "\n        <h1>Welcome to LinkTree!</h1>\n" ++
      "        <p>Please click the link below to verify your email address:</p>\n" ++
      "        <a href=\"" ++ verificationLink ++ "\">Verify Email</a>\n" ++
      "        <p>If you didn\x27t request this, please ignore this email.</p>\n      " }

/-- The handler `app.post("/register")` (app.js 117-172).  The destructuring of
the first `execute` throws, so the handler ends in its `catch`. -/
def register (B : Bcrypt) (cfg : Config) (ctx : Ctx) (s : Store)
    (sess : Option SessionUser) (email password : String) : Outcome :=
  match destructure (execute (selectUsersByEmail s email)) with
  | none =>
    { reply := .json 500 "Registration failed" none, store := s, session := sess, mails := [] }
  | some existing =>
    if existing.length > 0 then
      { reply := .json 400 "Email already in use" none, store := s, session := sess,
        mails := [] }
    else
      let hashedPassword := B.hash password ctx.salt
      let verificationCode := ctx.uuid
      let s1 := runQueued s (insertUser s email hashedPassword verificationCode ctx.now)
      let mail := verificationMail cfg ctx email verificationCode
      if ctx.mailOk then
        { reply := .json 200
            "Registration successful. Please check your email for verification." none,
          store := s1, session := sess, mails := [mail] }
      else
        { reply := .json 500 "Registration failed" none, store := s1, session := sess,
          mails := [mail] }

/-- The handler `app.get("/verify")` (app.js 174-223); `code` is `req.query.code`,
and `!code` holds for a missing and for an empty code.  The destructuring of
the `execute` throws, so a request with a code ends in the `catch`. -/
def verify (s : Store) (sess : Option SessionUser) (code : Option String) : Outcome :=
  match code with
  | none => { reply := .redirect "/create", store := s, session := sess, mails := [] }
  | some c =>
    if c = "" then
      { reply := .redirect "/create", store := s, session := sess, mails := [] }
    else
      match destructure (execute (selectUsersByCode s c)) with
      | none =>
        { reply := .renderVerify false "Verification failed" none,
          store := s, session := sess, mails := [] }
      | some [] =>
        { reply := .renderVerify false "Invalid verification code" none,
          store := s, session := sess, mails := [] }
      | some (user :: _) =>
        let s1 := markVerified s user.id
        let s2 := runQueued s1 (insertProfile s1 user.id)
        { reply := .renderVerify true "Email verified successfully!" (some "/dashboard"),
          store := s2, session := some { id := user.id, email := user.email }, mails := [] }

/-- The handler `app.post("/login")` (app.js 225-269).  The destructuring of the
`execute` throws, so the handler ends in its `catch`. -/
def login (B : Bcrypt) (s : Store) (sess : Option SessionUser) (email password : String) :
    Outcome :=
  match destructure (execute (selectUsersByEmail s email)) with
  | none =>
    { reply := .json 500 "Login failed" none, store := s, session := sess, mails := [] }
  | some [] =>
    { reply := .json 400 "Invalid email or password" none, store := s, session := sess,
      mails := [] }
  | some (user :: _) =>
    if !user.verified then
      { reply := .json 400 "Please verify your email first" none, store := s, session := sess,
        mails := [] }
    else
      let isMatch := B.compare password user.password
      if !isMatch then
        { reply := .json 400 "Invalid email or password" none, store := s, session := sess,
          mails := [] }
      else
        { reply := .json 200 "Login successful" (some "/dashboard"), store := s,
          session := some { id := user.id, email := user.email }, mails := [] }

/-- The handler `app.post("/update-profile")` (app.js 304-326).  The `UPDATE` is
queued and the handler answers 200 at once; with string values `execute` does
not throw, so the `catch` (500 "Profile update failed") is not taken. -/
def updateProfile (s : Store) (sess : Option SessionUser)
    (displayName bio themeColor : String) : Outcome :=
  match sess with
  | none => { reply := .json 401 "Unauthorized" none, store := s, session := sess, mails := [] }
  | some user =>
    { reply := .json 200 "Profile updated successfully" none,
      store := runQueued s (updateProfileRow s displayName bio themeColor user.id),
      session := sess, mails := [] }

/-- The handler `app.post("/add-link")` (app.js 328-350).  The `INSERT` is queued
and the handler answers 200 at once; with string values `execute` does not
throw, so the `catch` (500 "Failed to add link") is not taken. -/
def addLink (s : Store) (sess : Option SessionUser) (platform url : String) : Outcome :=
  match sess with
  | none => { reply := .json 401 "Unauthorized" none, store := s, session := sess, mails := [] }
  | some user =>
    { reply := .json 200 "Link added successfully" none,
      store := runQueued s (insertLink s user.id platform url),
      session := sess, mails := [] }

/-- The handler `app.post("/delete-link")` (app.js 352-374); `id` is the number
the request's `id` denotes. -/
def deleteLink (s : Store) (sess : Option SessionUser) (id : Nat) : Outcome :=
  match sess with
  | none => { reply := .json 401 "Unauthorized" none, store := s, session := sess, mails := [] }
  | some user =>
    { reply := .json 200 "Link deleted successfully" none,
      store := deleteLinkRow s id user.id, session := sess, mails := [] }

/-- The lookup key of `app.get("/:username")` (app.js 390), the expression
`username + "@" + process.env.EMAIL_DOMAIN || "example.com"`: `+` binds tighter
than `||`, so the concatenation is built first and `"example.com"` is taken only
when the concatenation is the empty string. -/
def emailKey (cfg : Config) (username : String) : String :=
  let key := username ++ "@" ++ jsString cfg.EMAIL_DOMAIN
  if key ≠ "" then key else "example.com"

/-- The handler `app.get("/:username")` (app.js 381-425).  The destructuring of
the first `execute` throws, so the handler ends in its `catch`. -/
def resolve (cfg : Config) (s : Store) (sess : Option SessionUser) (username : String) :
    Outcome :=
  match destructure (execute (selectUsersByEmail s (emailKey cfg username))) with
  | none => { reply := .render500, store := s, session := sess, mails := [] }
  | some [] => { reply := .render404, store := s, session := sess, mails := [] }
  | some (user :: _) =>
    match destructure (execute (selectProfiles s user.id)),
        destructure (execute (selectLinks s user.id)) with
    | some profiles, some links =>
      if links.length = 0 then
        { reply := .render404, store := s, session := sess, mails := [] }
      else
        { reply := .renderLinktree profiles.head? links, store := s, session := sess,
          mails := [] }
    | _, _ => { reply := .render500, store := s, session := sess, mails := [] }

/-! ## `adjustColor` (public/js/script.js 130-142)

JavaScript strings are modelled by lists of characters (one character per code
unit), a number that may be `NaN` by `Option Int`. -/

/-- The characters the regular expression `.` does not match. -/
def isLineTerminator (c : Char) : Bool :=
  c.toNat = 0x0A || c.toNat = 0x0D || c.toNat = 0x2028 || c.toNat = 0x2029

/-- The characters `parseInt` skips at the start of its argument. -/
def isWhiteSpace (c : Char) : Bool :=
  let n := c.toNat
  n = 0x09 || n = 0x0A || n = 0x0B || n = 0x0C || n = 0x0D || n = 0x20 || n = 0xA0 ||
  n = 0x1680 || (0x2000 ≤ n && n ≤ 0x200A) || n = 0x2028 || n = 0x2029 || n = 0x202F ||
  n = 0x205F || n = 0x3000 || n = 0xFEFF

/-- The value of a hexadecimal digit, `none` for any other character. -/
def hexDigit? (c : Char) : Option Nat :=
  let n := c.toNat
  if 48 ≤ n ∧ n ≤ 57 then some (n - 48)
  else if 97 ≤ n ∧ n ≤ 102 then some (n - 87)
  else if 65 ≤ n ∧ n ≤ 70 then some (n - 55)
  else none

/-- The longest run of hexadecimal digits at the start of the input, read as a
number; `acc` is `none` until a digit has been read. -/
def parseDigits : List Char → Option Nat → Option Nat
  | [], acc => acc
  | c :: cs, acc =>
    match hexDigit? c with
    | none => acc
    | some d => parseDigits cs (some (16 * acc.getD 0 + d))

/-- The call `parseInt(string, 16)`: leading white space, a sign and a `0x`
prefix are skipped, then digits are read as far as they go; `none` is `NaN`. -/
def parseInt16 (cs : List Char) : Option Int :=
  let cs := cs.dropWhile isWhiteSpace
  let signed : Bool × List Char :=
    match cs with
    | '-' :: r => (true, r)
    | '+' :: r => (false, r)
    | _ => (false, cs)
  let digits :=
    match signed.2 with
    | '0' :: 'x' :: r => r
    | '0' :: 'X' :: r => r
    | r => r
  match parseDigits digits none with
  | none => none
  | some n => some (if signed.1 then - (n : Int) else (n : Int))

/-- The call `number.toString(16)` on an integral number or `NaN`. -/
def toString16 : Option Int → List Char
  | none => ['N', 'a', 'N']
  | some n => if n < 0 then '-' :: Nat.toDigits 16 (- n).toNat else Nat.toDigits 16 n.toNat

/-- The callback of the second `replace`: the matched pair is parsed, shifted by
`amount`, clamped to `0..255`, and printed as the last two characters of
`"0" + hex`. -/
def adjustChannel (amount : Int) (a b : Char) : List Char :=
  let value := (parseInt16 [a, b]).map (fun x => min 255 (max 0 (x + amount)))
  let text := '0' :: toString16 value
  text.drop (text.length - 2)

/-- The call `string.replace(/../g, f)`: scanning from the left, every two
adjacent characters that are not line terminators are replaced by `f`. -/
def replacePairs (f : Char → Char → List Char) : List Char → List Char
  | [] => []
  | [a] => [a]
  | a :: b :: rest =>
    if !isLineTerminator a && !isLineTerminator b then f a b ++ replacePairs f rest
    else a :: replacePairs f (b :: rest)

/-- The call `string.replace(/^#/, "")`. -/
def stripHash : List Char → List Char
  | '#' :: r => r
  | cs => cs

/-- The function `adjustColor(color, amount)`. -/
def adjustColor (color : String) (amount : Int) : String :=
  "#" ++ String.mk (replacePairs (adjustChannel amount) (stripHash color.toList))

/-! ## Store states

`Store.Valid` collects what the schema of `initializeDatabase` guarantees of
every state of the database: primary keys, the two `UNIQUE` columns, the two
foreign keys, and counters above every id handed out. -/

/-- The constraints of the schema. -/
structure Store.Valid (s : Store) : Prop where
  userIds : (s.users.map (fun u => u.id)).Nodup
  emails : (s.users.map (fun u => u.email)).Nodup
  profileIds : (s.profiles.map (fun p => p.id)).Nodup
  profileOwners : (s.profiles.map (fun p => p.user_id)).Nodup
  linkIds : (s.links.map (fun l => l.id)).Nodup
  profileFk : ∀ p ∈ s.profiles, ∃ u ∈ s.users, u.id = p.user_id
  linkFk : ∀ l ∈ s.links, ∃ u ∈ s.users, u.id = l.user_id
  userCounter : ∀ u ∈ s.users, u.id < s.nextUserId
  profileCounter : ∀ p ∈ s.profiles, p.id < s.nextProfileId
  linkCounter : ∀ l ∈ s.links, l.id < s.nextLinkId

instance (s : Store) : Decidable s.Valid :=
  decidable_of_iff
    ((s.users.map (fun u => u.id)).Nodup ∧ (s.users.map (fun u => u.email)).Nodup ∧
      (s.profiles.map (fun p => p.id)).Nodup ∧ (s.profiles.map (fun p => p.user_id)).Nodup ∧
      (s.links.map (fun l => l.id)).Nodup ∧
      (∀ p ∈ s.profiles, ∃ u ∈ s.users, u.id = p.user_id) ∧
      (∀ l ∈ s.links, ∃ u ∈ s.users, u.id = l.user_id) ∧
      (∀ u ∈ s.users, u.id < s.nextUserId) ∧
      (∀ p ∈ s.profiles, p.id < s.nextProfileId) ∧
      (∀ l ∈ s.links, l.id < s.nextLinkId))
    ⟨fun ⟨h1, h2, h3, h4, h5, h6, h7, h8, h9, h10⟩ => ⟨h1, h2, h3, h4, h5, h6, h7, h8, h9, h10⟩,
     fun h => ⟨h.1, h.2, h.3, h.4, h.5, h.6, h.7, h.8, h.9, h.10⟩⟩

/-! ## Sample data -/

/-- A user row as `register` followed by `verify` leaves it. -/
def sampleUser : User :=
  { id := 1, email := "a@example.com", password := "$$|hunter2", verified := true,
    verification_code := none, created_at := 0 }

/-- A store with one verified user who has a profile and one link. -/
def sampleStore : Store :=
  { users := [sampleUser],
    profiles := [{ id := 1, user_id := 1, display_name := none, bio := none,
                   theme_color := some "#6366f1" }],
    links := [{ id := 1, user_id := 1, platform := "twitter", url := "https://t.co/a" }],
    nextUserId := 2, nextProfileId := 2, nextLinkId := 2 }

/-- A toy hashing primitive: the hash is `salt` dollar signs, a bar and the
password. -/
def sampleBcrypt : Bcrypt :=
  { hash := fun password salt => String.mk (List.replicate salt '$' ++ '|' :: password.toList),
    compare := fun password hash =>
      decide (hash.toList.dropWhile (fun c => c = '$') = '|' :: password.toList) }

/-- A request context. -/
def sampleCtx : Ctx :=
  { protocol := "http", host := some "localhost:3000", uuid := "3f2a", salt := 2, now := 0,
    mailOk := true }

/-- A store in which the verified user has no profile row and no link. -/
def bareStore : Store :=
  { users := [sampleUser], profiles := [], links := [],
    nextUserId := 2, nextProfileId := 1, nextLinkId := 1 }

/-! ## Vocabulary for colours -/

/-- The hexadecimal digits, in either case. -/
def hexDigits : List Char :=
  ['0', '1', '2', '3', '4', '5', '6', '7', '8', '9',
   'a', 'b', 'c', 'd', 'e', 'f', 'A', 'B', 'C', 'D', 'E', 'F']

/-- The lowercase hexadecimal digits. -/
def lowerHexDigits : List Char :=
  ['0', '1', '2', '3', '4', '5', '6', '7', '8', '9', 'a', 'b', 'c', 'd', 'e', 'f']

/-- The value of a hexadecimal digit: its position among the lowercase digits. -/
def hexValue (c : Char) : Nat := lowerHexDigits.indexOf c.toLower

/-- The value of a two-digit channel. -/
def channelValue (a b : Char) : Nat := 16 * hexValue a + hexValue b

/-- A channel value below 256 written as two lowercase hexadecimal digits. -/
def hexPair (n : Nat) : List Char := [Nat.digitChar (n / 16), Nat.digitChar (n % 16)]

/-- Clamping to the range `0..255`. -/
def clampChannel (x : Int) : Nat := (min 255 (max 0 x)).toNat

/-- The configuration of the end-to-end example: the public pages live under
`x.com`. -/
def sampleConfig : Config := { EMAIL_DOMAIN := some "x.com", EMAIL_USER := none }

/-- A user row with a pending verification code. -/
def pendingUser : User :=
  { id := 1, email := "a@x.com", password := "$$|pw", verified := false,
    verification_code := some "3f2a", created_at := 0 }

/-- A store whose only user has registered and not yet verified. -/
def pendingStore : Store :=
  { users := [pendingUser], profiles := [], links := [],
    nextUserId := 2, nextProfileId := 1, nextLinkId := 1 }

/-! # Theorems -/

/-! ## General lemmas on lists of rows -/

theorem filter_key_eq_singleton {α β : Type} [DecidableEq β] (f : α → β) :
    ∀ (l : List α) (u : α), (l.map f).Nodup → u ∈ l →
      l.filter (fun x => decide (f x = f u)) = [u]
  | [], _, _, hu => by simp at hu
  | a :: l, u, hnd, hu => by
    rw [List.map_cons, List.nodup_cons] at hnd
    rcases List.mem_cons.1 hu with rfl | hmem
    · have hrest : l.filter (fun x => decide (f x = f u)) = [] := by
        rw [List.filter_eq_nil_iff]
        intro x hx hfx
        exact hnd.1 (by rw [← of_decide_eq_true hfx]; exact List.mem_map_of_mem f hx)
      simp [List.filter_cons, hrest]
    · have hne : ¬ f a = f u := fun h => hnd.1 (by rw [h]; exact List.mem_map_of_mem f hmem)
      simp [List.filter_cons, hne, filter_key_eq_singleton f l u hnd.2 hmem]

theorem filter_key_eq_nil {α β : Type} [DecidableEq β] (f : α → β) (l : List α) (k : β)
    (h : ∀ x ∈ l, f x ≠ k) : l.filter (fun x => decide (f x = k)) = [] := by
  rw [List.filter_eq_nil_iff]
  intro x hx hfx
  exact h x hx (of_decide_eq_true hfx)

theorem append_at_ne_empty (a b : String) : a ++ "@" ++ b ≠ "" := by
  intro h
  have := congrArg String.length h
  rw [String.length_append, String.length_append] at this
  have h1 : "@".length = 1 := rfl
  have h0 : "".length = 0 := rfl
  omega

/-! ## Registration, verification and login

Each of these handlers destructures the value of its first `execute`, which
throws, so each ends in its `catch` whatever the store holds. -/

/-- C1: `register` never answers 400.  For every store and every request it
answers 500 "Registration failed", leaves the store as it was and hands no
message to the mail transporter; in particular it does so for the email
`a@example.com` that already belongs to a user of `sampleStore`. -/
theorem register_answers_500 :
    (∀ (B : Bcrypt) (cfg : Config) (ctx : Ctx) (s : Store) (sess : Option SessionUser)
        (email password : String),
      register B cfg ctx s sess email password =
        { reply := .json 500 "Registration failed" none, store := s, session := sess,
          mails := [] }) ∧
    sampleUser ∈ sampleStore.users ∧ sampleUser.email = "a@example.com" ∧
    (register sampleBcrypt ⟨none, none⟩ sampleCtx sampleStore none "a@example.com" "pw").reply
      = .json 500 "Registration failed" none ∧
    (register sampleBcrypt ⟨none, none⟩ sampleCtx sampleStore none "a@example.com"
      "pw").reply.status ≠ 400 ∧
    (register sampleBcrypt ⟨none, none⟩ sampleCtx sampleStore none "a@example.com" "pw").store
      = sampleStore ∧
    (register sampleBcrypt ⟨none, none⟩ sampleCtx sampleStore none "a@example.com" "pw").mails
      = [] := by
  refine ⟨fun _ _ _ _ _ _ _ => rfl, by decide, by decide, rfl, by decide, rfl, rfl⟩

/-- C2: `verify` with a non-empty code never verifies anybody.  For every store
and session it renders "Verification failed" and leaves store and session as
they were; in particular, for the code `3f2a` stored for the only user of
`pendingStore`, the user stays unverified with the code in place, no profile
is created and nobody is signed in. -/
theorem verify_answers_failure :
    (∀ (s : Store) (sess : Option SessionUser) (c : String),
      verify s sess (some c) =
        if c = "" then
          { reply := .redirect "/create", store := s, session := sess, mails := [] }
        else
          { reply := .renderVerify false "Verification failed" none, store := s,
            session := sess, mails := [] }) ∧
    pendingStore.Valid ∧
    pendingUser ∈ pendingStore.users ∧ pendingUser.verification_code = some "3f2a" ∧
    (verify pendingStore none (some "3f2a")).reply
      = .renderVerify false "Verification failed" none ∧
    (verify pendingStore none (some "3f2a")).session = none ∧
    (verify pendingStore none (some "3f2a")).store = pendingStore ∧
    pendingUser ∈ (verify pendingStore none (some "3f2a")).store.users ∧
    pendingUser.verified = false ∧
    selectProfiles (verify pendingStore none (some "3f2a")).store 1 = [] := by
  refine ⟨?_, by decide, by decide, rfl, rfl, rfl, rfl, by decide, rfl, rfl⟩
  intro s sess c
  unfold verify
  dsimp only
  split <;> rfl

/-- C3: `login` never answers 400 or 200.  For every store, session and request
it answers 500 "Login failed" and leaves store and session as they were; in
particular it does so for the verified user of `sampleStore` with the password
`bcrypt.compare` accepts (the claim: 200) and for an email no user has (the
claim: 400). -/
theorem login_answers_500 :
    (∀ (B : Bcrypt) (s : Store) (sess : Option SessionUser) (email password : String),
      login B s sess email password =
        { reply := .json 500 "Login failed" none, store := s, session := sess, mails := [] }) ∧
    sampleStore.Valid ∧
    sampleUser ∈ sampleStore.users ∧ sampleUser.email = "a@example.com" ∧
    sampleUser.verified = true ∧ sampleBcrypt.compare "hunter2" sampleUser.password = true ∧
    (login sampleBcrypt sampleStore none "a@example.com" "hunter2").reply
      = .json 500 "Login failed" none ∧
    (login sampleBcrypt sampleStore none "a@example.com" "hunter2").reply.status ≠ 200 ∧
    (login sampleBcrypt sampleStore none "a@example.com" "hunter2").session = none ∧
    (∀ u ∈ sampleStore.users, u.email ≠ "nobody@example.com") ∧
    (login sampleBcrypt sampleStore none "nobody@example.com" "hunter2").reply.status ≠ 400 := by
  refine ⟨fun _ _ _ _ _ => rfl, by decide, by decide, by decide, rfl, by decide, rfl,
    by decide, rfl, by decide, by decide⟩

/-! ## The session gate -/

/-- C6: without an authenticated session `updateProfile`, `addLink` and
`deleteLink` each answer 401 "Unauthorized" and leave the whole store (users,
profiles and links) and the session as they were, whatever the request body. -/
theorem unauthorized_without_session (s : Store) (displayName bio themeColor platform url : String)
    (id : Nat) :
    ((updateProfile s none displayName bio themeColor).reply = .json 401 "Unauthorized" none ∧
      (updateProfile s none displayName bio themeColor).reply.status = 401 ∧
      (updateProfile s none displayName bio themeColor).store = s ∧
      (updateProfile s none displayName bio themeColor).session = none) ∧
    ((addLink s none platform url).reply = .json 401 "Unauthorized" none ∧
      (addLink s none platform url).reply.status = 401 ∧
      (addLink s none platform url).store = s ∧
      (addLink s none platform url).session = none) ∧
    ((deleteLink s none id).reply = .json 401 "Unauthorized" none ∧
      (deleteLink s none id).reply.status = 401 ∧
      (deleteLink s none id).store = s ∧
      (deleteLink s none id).session = none) :=
  ⟨⟨rfl, rfl, rfl, rfl⟩, ⟨rfl, rfl, rfl, rfl⟩, ⟨rfl, rfl, rfl, rfl⟩⟩

/-! ## Links -/

theorem deleteLinkRow_eq_erase {s : Store} (hv : s.Valid) {l : Link} (hl : l ∈ s.links) :
    (deleteLinkRow s l.id l.user_id).links = s.links.erase l := by
  have hnd : s.links.Nodup := List.Nodup.of_map _ hv.linkIds
  rw [hnd.erase_eq_filter]
  unfold deleteLinkRow
  apply List.filter_congr
  intro y hy
  by_cases hyl : y = l
  · subst hyl; simp
  · have hid : y.id ≠ l.id := fun h => hyl (List.inj_on_of_nodup_map hv.linkIds hy hl h)
    simp [hyl, hid]

theorem deleteLinkRow_eq_self {s : Store} {id userId : Nat}
    (h : ∀ l ∈ s.links, l.id = id → l.user_id ≠ userId) : deleteLinkRow s id userId = s := by
  have hf : s.links.filter (fun l => ¬ (l.id = id ∧ l.user_id = userId)) = s.links := by
    rw [List.filter_eq_self]
    intro l hl
    have := h l hl
    exact decide_eq_true (fun hc => this hc.1 hc.2)
  unfold deleteLinkRow
  rw [hf]

/-- C4: for an authenticated session of `user`, `deleteLink` always answers 200
and never touches users or profiles.  When no link with the given id is owned by
`user` (the id does not exist or belongs to somebody else) the store is left as
it was; when the link with that id is owned by `user`, exactly that row is
removed from the links and every other link stays. -/
theorem deleteLink_spec (s : Store) (hv : s.Valid) (user : SessionUser) (id : Nat) :
    (deleteLink s (some user) id).reply = .json 200 "Link deleted successfully" none ∧
    (deleteLink s (some user) id).reply.status = 200 ∧
    (deleteLink s (some user) id).store.users = s.users ∧
    (deleteLink s (some user) id).store.profiles = s.profiles ∧
    ((∀ l ∈ s.links, l.id = id → l.user_id ≠ user.id) →
      (deleteLink s (some user) id).store = s) ∧
    (∀ l ∈ s.links, l.id = id → l.user_id = user.id →
      (deleteLink s (some user) id).store.links = s.links.erase l ∧
      l ∉ (deleteLink s (some user) id).store.links ∧
      ∀ l' ∈ s.links, l' ≠ l → l' ∈ (deleteLink s (some user) id).store.links) := by
  refine ⟨rfl, rfl, rfl, rfl, ?_, ?_⟩
  · intro h
    exact deleteLinkRow_eq_self h
  · intro l hl hid hown
    have hnd : s.links.Nodup := List.Nodup.of_map _ hv.linkIds
    have he : (deleteLink s (some user) id).store.links = s.links.erase l := by
      subst hid
      show (deleteLinkRow s l.id user.id).links = s.links.erase l
      rw [← hown]
      exact deleteLinkRow_eq_erase hv hl
    rw [he]
    refine ⟨rfl, ?_, ?_⟩
    · exact fun hmem => (hnd.mem_erase_iff.1 hmem).1 rfl
    · intro l' hl' hne
      exact hnd.mem_erase_iff.2 ⟨hne, hl'⟩

theorem deleteLink_spec_witness :
    (deleteLink sampleStore (some ⟨1, "a@example.com"⟩) 1).store.links = [] ∧
    (deleteLink sampleStore (some ⟨2, "b@example.com"⟩) 1).store = sampleStore ∧
    (deleteLink sampleStore (some ⟨1, "a@example.com"⟩) 5).store = sampleStore :=
  ⟨((deleteLink_spec sampleStore (by decide) ⟨1, "a@example.com"⟩ 1).2.2.2.2.2
      ⟨1, 1, "twitter", "https://t.co/a"⟩ (by decide) rfl rfl).1,
   (deleteLink_spec sampleStore (by decide) ⟨2, "b@example.com"⟩ 1).2.2.2.2.1 (by decide),
   (deleteLink_spec sampleStore (by decide) ⟨1, "a@example.com"⟩ 5).2.2.2.2.1 (by decide)⟩

/-! ## The public page -/

/-- C5: `resolve` never answers 404 and never renders a page.  For every store
and identifier it answers 500 with the view `500`; in particular it does so for
the user of `sampleStore`, who has a profile and a link (the claim: the page),
for an identifier no user matches and for the user of `bareStore`, who owns no
link (the claim: 404). -/
theorem resolve_answers_500 :
    (∀ (cfg : Config) (s : Store) (sess : Option SessionUser) (username : String),
      resolve cfg s sess username =
        { reply := .render500, store := s, session := sess, mails := [] }) ∧
    sampleStore.Valid ∧
    selectUsersByEmail sampleStore (emailKey ⟨some "example.com", none⟩ "a") = [sampleUser] ∧
    selectLinks sampleStore sampleUser.id = [⟨1, 1, "twitter", "https://t.co/a"⟩] ∧
    (resolve ⟨some "example.com", none⟩ sampleStore none "a").reply = .render500 ∧
    (resolve ⟨some "example.com", none⟩ sampleStore none "a").reply.status = 500 ∧
    selectUsersByEmail sampleStore (emailKey ⟨some "example.com", none⟩ "b") = [] ∧
    (resolve ⟨some "example.com", none⟩ sampleStore none "b").reply.status ≠ 404 ∧
    selectLinks bareStore sampleUser.id = [] ∧
    (resolve ⟨some "example.com", none⟩ bareStore none "a").reply.status ≠ 404 := by
  refine ⟨fun _ _ _ _ => rfl, by decide, by decide, by decide, rfl, rfl, by decide, by decide,
    by decide, by decide⟩

/-- C9: the lookup key of `resolve` is `username@d` when `EMAIL_DOMAIN` is set to
`d`, but `username@undefined` when it is not set: `"example.com"` is never
used.  With `EMAIL_DOMAIN` unset the `SELECT` the handler sends for `a` does not
find the user `a@example.com`, although it finds that user when the variable is
set to `example.com`. -/
theorem emailKey_unset_domain :
    (∀ (emailUser : Option String) (username : String),
      emailKey ⟨none, emailUser⟩ username = username ++ "@undefined") ∧
    (∀ (emailUser : Option String) (d username : String),
      emailKey ⟨some d, emailUser⟩ username = username ++ "@" ++ d) ∧
    emailKey ⟨none, none⟩ "a" = "a@undefined" ∧
    emailKey ⟨none, none⟩ "a" ≠ "a@example.com" ∧
    selectUsersByEmail sampleStore (emailKey ⟨none, none⟩ "a") = [] ∧
    selectUsersByEmail sampleStore (emailKey ⟨some "example.com", none⟩ "a") = [sampleUser] := by
  refine ⟨?_, ?_, by decide, by decide, by decide, by decide⟩
  · intro _ username
    simp only [emailKey, jsString]
    rw [if_pos (append_at_ne_empty username "undefined"), String.append_assoc]
    rfl
  · intro _ d username
    simp only [emailKey, jsString]
    rw [if_pos (append_at_ne_empty username d)]

/-! ## Profiles -/

theorem updateProfileRow_profiles {s s1 : Store} {displayName bio themeColor : String}
    {userId : Nat} (h : updateProfileRow s displayName bio themeColor userId = some s1) :
    s1 = { s with profiles := s.profiles.map (fun p =>
      if p.user_id = userId then
        { p with display_name := some displayName, bio := some bio,
                 theme_color := some themeColor }
      else p) } := by
  unfold updateProfileRow at h
  split at h
  · cases h
  · exact (Option.some.inj h).symm

/-- C7 (as stated, refuted): `bareStore` satisfies the schema; for its verified
user, who has no profile row, `updateProfile` answers 200 "Profile updated
successfully" and afterwards the user still has no profile row: the statement
is an `UPDATE`, no row is inserted. -/
theorem updateProfile_not_upsert :
    bareStore.Valid ∧
    (updateProfile bareStore (some ⟨1, "a@example.com"⟩) "Ann" "hello" "#ff0000").reply
      = .json 200 "Profile updated successfully" none ∧
    selectProfiles
      (updateProfile bareStore (some ⟨1, "a@example.com"⟩) "Ann" "hello" "#ff0000").store 1
      = [] ∧
    ¬ ((updateProfile bareStore (some ⟨1, "a@example.com"⟩) "Ann" "hello" "#ff0000").reply.status
        = 200 →
      (selectProfiles
        (updateProfile bareStore (some ⟨1, "a@example.com"⟩) "Ann" "hello" "#ff0000").store
        1).length = 1) := by
  decide

/-- C7 (amended): for an authenticated session of `user` and a store that
satisfies the schema, `updateProfile` never touches users, links or the
session, and the profile rows of every other user are the same before and
after.  When the three values fit their columns it answers 200, and if `user`
has a profile row, afterwards `user` has exactly one profile row: the old one
with the three values written over its text columns.  When `user` has no
profile row it answers 200, creates none and leaves the store as it was. -/
theorem updateProfile_spec (s : Store) (hv : s.Valid) (user : SessionUser)
    (displayName bio themeColor : String) :
    (updateProfile s (some user) displayName bio themeColor).store.users = s.users ∧
    (updateProfile s (some user) displayName bio themeColor).store.links = s.links ∧
    (updateProfile s (some user) displayName bio themeColor).session = some user ∧
    (∀ q : Profile, q.user_id ≠ user.id →
      (q ∈ (updateProfile s (some user) displayName bio themeColor).store.profiles ↔
        q ∈ s.profiles)) ∧
    ((displayName.length ≤ 100 ∧ bio.utf8ByteSize ≤ 65535 ∧ themeColor.length ≤ 50) →
      (updateProfile s (some user) displayName bio themeColor).reply
        = .json 200 "Profile updated successfully" none ∧
      (∀ p ∈ s.profiles, p.user_id = user.id →
        selectProfiles (updateProfile s (some user) displayName bio themeColor).store user.id
          = [{ p with display_name := some displayName, bio := some bio,
                      theme_color := some themeColor }])) ∧
    ((∀ p ∈ s.profiles, p.user_id ≠ user.id) →
      (updateProfile s (some user) displayName bio themeColor).reply
        = .json 200 "Profile updated successfully" none ∧
      selectProfiles (updateProfile s (some user) displayName bio themeColor).store user.id
        = [] ∧
      (updateProfile s (some user) displayName bio themeColor).store = s) := by
  have hstore : (updateProfile s (some user) displayName bio themeColor).store
      = runQueued s (updateProfileRow s displayName bio themeColor user.id) := rfl
  refine ⟨?_, ?_, rfl, ?_, ?_, ?_⟩
  · rw [hstore]
    cases h : updateProfileRow s displayName bio themeColor user.id with
    | none => rfl
    | some s1 => rw [updateProfileRow_profiles h]; rfl
  · rw [hstore]
    cases h : updateProfileRow s displayName bio themeColor user.id with
    | none => rfl
    | some s1 => rw [updateProfileRow_profiles h]; rfl
  · intro q hq
    rw [hstore]
    cases h : updateProfileRow s displayName bio themeColor user.id with
    | none => exact Iff.rfl
    | some s1 =>
      rw [updateProfileRow_profiles h]
      show q ∈ List.map _ s.profiles ↔ _
      simp only [List.mem_map]
      constructor
      · rintro ⟨q0, hq0, he⟩
        by_cases h0 : q0.user_id = user.id
        · rw [if_pos h0] at he
          exact absurd (by rw [← he]; exact h0) hq
        · rw [if_neg h0] at he
          exact he ▸ hq0
      · intro hmem
        exact ⟨q, hmem, if_neg hq⟩
  · intro hfit
    refine ⟨rfl, ?_⟩
    intro p hp hpo
    have hrow : updateProfileRow s displayName bio themeColor user.id =
        some { s with profiles := s.profiles.map (fun p =>
          if p.user_id = user.id then
            { p with display_name := some displayName, bio := some bio,
                     theme_color := some themeColor }
          else p) } := by
      unfold updateProfileRow
      rw [if_neg (fun hc => hc.2 hfit)]
    rw [hstore, hrow]
    show List.filter _ (List.map _ s.profiles) = _
    rw [List.filter_map]
    have hsel : s.profiles.filter (fun q => decide (q.user_id = p.user_id)) = [p] :=
      filter_key_eq_singleton (fun (q : Profile) => q.user_id) s.profiles p
        hv.profileOwners hp
    have hfun : ((fun (q : Profile) => decide (q.user_id = user.id)) ∘
        (fun (q : Profile) => if q.user_id = user.id then
          { q with display_name := some displayName, bio := some bio,
                   theme_color := some themeColor } else q))
        = (fun q => decide (q.user_id = p.user_id)) := by
      funext q
      by_cases hq : q.user_id = user.id <;> simp [hq, hpo]
    rw [hfun, hsel]
    simp [hpo]
  · intro hno
    have hany : ¬ (s.profiles.any (fun p => decide (p.user_id = user.id)) = true) := by
      simp only [List.any_eq_true, decide_eq_true_eq, not_exists, not_and]
      exact fun p hp => hno p hp
    have hmap : s.profiles.map (fun p =>
        if p.user_id = user.id then
          { p with display_name := some displayName, bio := some bio,
                   theme_color := some themeColor }
        else p) = s.profiles := by
      conv_rhs => rw [← List.map_id s.profiles]
      apply List.map_congr_left
      intro p hp
      simp [hno p hp]
    have hrow : updateProfileRow s displayName bio themeColor user.id = some s := by
      unfold updateProfileRow
      rw [if_neg (fun hc => hany hc.1), hmap]
    have hs : (updateProfile s (some user) displayName bio themeColor).store = s := by
      rw [hstore, hrow]
      rfl
    refine ⟨rfl, ?_, hs⟩
    rw [hs]
    exact filter_key_eq_nil (fun (q : Profile) => q.user_id) s.profiles user.id hno

theorem updateProfile_spec_witness :
    selectProfiles
      (updateProfile sampleStore (some ⟨1, "a@example.com"⟩) "Ann" "hello" "#ff0000").store 1
      = [⟨1, 1, some "Ann", some "hello", some "#ff0000"⟩] ∧
    (updateProfile bareStore (some ⟨1, "a@example.com"⟩) "Ann" "hello" "#ff0000").store
      = bareStore :=
  ⟨((updateProfile_spec sampleStore (by decide) ⟨1, "a@example.com"⟩ "Ann" "hello"
      "#ff0000").2.2.2.2.1 (by decide)).2 ⟨1, 1, none, none, some "#6366f1"⟩ (by decide) rfl,
   ((updateProfile_spec bareStore (by decide) ⟨1, "a@example.com"⟩ "Ann" "hello"
      "#ff0000").2.2.2.2.2 (by decide)).2.2⟩

/-! ## `adjustColor` -/

set_option maxRecDepth 100000 in
theorem parseInt16_pair : ∀ a ∈ hexDigits, ∀ b ∈ hexDigits,
    parseInt16 [a, b] = some ((channelValue a b : Nat) : Int) := by
  decide

set_option maxRecDepth 100000 in
theorem drop_zero_toDigits : ∀ n < 256,
    ('0' :: Nat.toDigits 16 n).drop (('0' :: Nat.toDigits 16 n).length - 2) = hexPair n := by
  decide

set_option maxRecDepth 100000 in
theorem hexPair_channelValue : ∀ a ∈ hexDigits, ∀ b ∈ hexDigits,
    hexPair (channelValue a b) = [a.toLower, b.toLower] := by
  decide

set_option maxRecDepth 100000 in
theorem channelValue_le : ∀ a ∈ hexDigits, ∀ b ∈ hexDigits, channelValue a b ≤ 255 := by
  decide

theorem hexDigit_not_lineTerminator : ∀ a ∈ hexDigits, isLineTerminator a = false := by
  decide

set_option maxRecDepth 100000 in
theorem hexPair_lower : ∀ n < 256, ∀ c ∈ hexPair n, c ∈ lowerHexDigits := by
  decide

theorem clampChannel_lt (x : Int) : clampChannel x < 256 := by
  unfold clampChannel
  omega

theorem clampChannel_of_le {n : Nat} (h : n ≤ 255) : clampChannel ((n : Int) + 0) = n := by
  unfold clampChannel
  omega

theorem adjustChannel_hex (amount : Int) {a b : Char} (ha : a ∈ hexDigits)
    (hb : b ∈ hexDigits) :
    adjustChannel amount a b = hexPair (clampChannel ((channelValue a b : Nat) + amount)) := by
  have hnn : ¬ min 255 (max 0 (((channelValue a b : Nat) : Int) + amount)) < 0 := by omega
  simp only [adjustChannel, parseInt16_pair a ha b hb, Option.map_some', toString16, if_neg hnn]
  exact drop_zero_toDigits _ (clampChannel_lt _)

theorem replacePairs_six (f : Char → Char → List Char) {d1 d2 d3 d4 d5 d6 : Char}
    (h1 : d1 ∈ hexDigits) (h2 : d2 ∈ hexDigits) (h3 : d3 ∈ hexDigits) (h4 : d4 ∈ hexDigits)
    (h5 : d5 ∈ hexDigits) (h6 : d6 ∈ hexDigits) :
    replacePairs f [d1, d2, d3, d4, d5, d6] = f d1 d2 ++ (f d3 d4 ++ f d5 d6) := by
  simp [replacePairs, hexDigit_not_lineTerminator _ h1, hexDigit_not_lineTerminator _ h2,
    hexDigit_not_lineTerminator _ h3, hexDigit_not_lineTerminator _ h4,
    hexDigit_not_lineTerminator _ h5, hexDigit_not_lineTerminator _ h6]

/-- C10: for a colour `#` followed by six hexadecimal digits and any integer
`amount`, `adjustColor` returns `#` followed by the three channels, each the
input channel plus `amount` clamped to `0..255` and written as two lowercase
hexadecimal digits: seven characters, the last six lowercase hexadecimal
digits.  With `amount = 0` the result is the input in lower case. -/
theorem adjustColor_spec (d1 d2 d3 d4 d5 d6 : Char)
    (h1 : d1 ∈ hexDigits) (h2 : d2 ∈ hexDigits) (h3 : d3 ∈ hexDigits) (h4 : d4 ∈ hexDigits)
    (h5 : d5 ∈ hexDigits) (h6 : d6 ∈ hexDigits) (amount : Int) :
    adjustColor (String.mk ['#', d1, d2, d3, d4, d5, d6]) amount
      = String.mk ('#' :: (hexPair (clampChannel ((channelValue d1 d2 : Nat) + amount)) ++
          (hexPair (clampChannel ((channelValue d3 d4 : Nat) + amount)) ++
            hexPair (clampChannel ((channelValue d5 d6 : Nat) + amount))))) ∧
    (adjustColor (String.mk ['#', d1, d2, d3, d4, d5, d6]) amount).length = 7 ∧
    (∀ c ∈ (adjustColor (String.mk ['#', d1, d2, d3, d4, d5, d6]) amount).toList.tail,
      c ∈ lowerHexDigits) ∧
    adjustColor (String.mk ['#', d1, d2, d3, d4, d5, d6]) 0
      = (String.mk ['#', d1, d2, d3, d4, d5, d6]).toLower := by
  have key : ∀ amt : Int, adjustColor (String.mk ['#', d1, d2, d3, d4, d5, d6]) amt
      = String.mk ('#' :: (hexPair (clampChannel ((channelValue d1 d2 : Nat) + amt)) ++
          (hexPair (clampChannel ((channelValue d3 d4 : Nat) + amt)) ++
            hexPair (clampChannel ((channelValue d5 d6 : Nat) + amt))))) := by
    intro amt
    show "#" ++ String.mk (replacePairs (adjustChannel amt) [d1, d2, d3, d4, d5, d6]) = _
    rw [replacePairs_six _ h1 h2 h3 h4 h5 h6, adjustChannel_hex amt h1 h2,
      adjustChannel_hex amt h3 h4, adjustChannel_hex amt h5 h6]
    rfl
  refine ⟨key amount, ?_, ?_, ?_⟩
  · rw [key amount]
    rfl
  · rw [key amount]
    intro c hc
    simp only [String.toList, List.tail_cons, List.mem_append] at hc
    rcases hc with hc | hc | hc
    · exact hexPair_lower _ (clampChannel_lt _) c hc
    · exact hexPair_lower _ (clampChannel_lt _) c hc
    · exact hexPair_lower _ (clampChannel_lt _) c hc
  · rw [key 0, clampChannel_of_le (channelValue_le d1 h1 d2 h2),
      clampChannel_of_le (channelValue_le d3 h3 d4 h4),
      clampChannel_of_le (channelValue_le d5 h5 d6 h6),
      hexPair_channelValue d1 h1 d2 h2, hexPair_channelValue d3 h3 d4 h4,
      hexPair_channelValue d5 h5 d6 h6]
    simp [String.toLower, String.map_eq]

theorem adjustColor_spec_witness :
    adjustColor "#6366F1" 20 = "#777aff" ∧ adjustColor "#6366F1" 0 = "#6366F1".toLower :=
  ⟨(adjustColor_spec '6' '3' '6' '6' 'F' '1' (by decide) (by decide) (by decide) (by decide)
      (by decide) (by decide) 20).1,
   (adjustColor_spec '6' '3' '6' '6' 'F' '1' (by decide) (by decide) (by decide) (by decide)
      (by decide) (by decide) 20).2.2.2⟩

/-! ## End to end -/

/-- C8: the scenario of the specification, run from the initialised database
with the domain suffix `x.com`.  `register("a@x.com", "pw")` answers 500 and
stores no user; `verify` with the code `uuidv4()` returned renders
"Verification failed" and signs nobody in; `login` answers 500; `addLink`, sent
with the session these steps left, answers 401 and stores no link; the public
page of `a` answers 500 instead of showing one link, and 500 instead of 404
after `deleteLink`. -/
theorem end_to_end_fails :
    (register sampleBcrypt sampleConfig sampleCtx Store.empty none "a@x.com" "pw")
      = { reply := .json 500 "Registration failed" none, store := Store.empty,
          session := none, mails := [] } ∧
    (verify
        (register sampleBcrypt sampleConfig sampleCtx Store.empty none "a@x.com" "pw").store
        (register sampleBcrypt sampleConfig sampleCtx Store.empty none "a@x.com" "pw").session
        (some sampleCtx.uuid))
      = { reply := .renderVerify false "Verification failed" none, store := Store.empty,
          session := none, mails := [] } ∧
    (login sampleBcrypt Store.empty none "a@x.com" "pw")
      = { reply := .json 500 "Login failed" none, store := Store.empty, session := none,
          mails := [] } ∧
    (addLink Store.empty none "twitter" "https://t.co/a")
      = { reply := .json 401 "Unauthorized" none, store := Store.empty, session := none,
          mails := [] } ∧
    (resolve sampleConfig Store.empty none "a").reply = .render500 ∧
    (∀ (profile : Option Profile) (link : Link),
      (resolve sampleConfig Store.empty none "a").reply ≠ .renderLinktree profile [link]) ∧
    (resolve sampleConfig (deleteLink Store.empty none 1).store none "a").reply.status
      ≠ 404 := by
  refine ⟨rfl, by decide, rfl, rfl, rfl, ?_, by decide⟩
  intro profile link h
  cases h

end Linktree
